import Mathlib

/-!
Shallow embedding of `src/airflow/api_connexion/endpoints/dag_endpoint.py`
(Apache Airflow, REST API DAG endpoint).

The metadata store is modelled as a `List DagModel` (the registry); a
SQLAlchemy query is modelled as the list of rows it returns, each
`.filter(...)` call as `List.filter`, `order_by` as a sort by ascending
identifier, and `offset`/`limit` as `List.drop`/`List.take`.  The external collaborators
(schema deserializer, access filter, the shared deletion routine) enter as
explicit parameters: the outcome of `dag_schema.load` is an
`Except String Doc` argument, `get_accessible_dag_ids(g.user)` is a
`List String` argument, and the "task instances still running" condition
checked by the shared deletion routine is a `String → Bool` argument.
Raised API exceptions become the `ApiError` error type; an uncaught Python
`KeyError` (an unclassified failure) is the `ApiError.keyError` constructor.
-/

/-- Row of the `dag` table (`airflow.models.dag.DagModel`), restricted to the
columns this endpoint reads or writes, plus two further metadata columns
(`owners`, `fileloc`) used to state frame properties.  `tags` holds the names
of the associated `DagTag` rows. -/
structure DagModel where
  dag_id : String
  is_paused : Bool
  is_active : Bool
  is_subdag : Bool
  tags : List String
  owners : String
  fileloc : String
deriving Repr, DecidableEq

/-- The `DAGCollection` payload: the page of records plus `total_entries`. -/
structure DAGCollection where
  dags : List DagModel
  total_entries : Nat
deriving Repr, DecidableEq

/-- Errors raised by the endpoint layer.  `notFound`, `badRequest` and
`alreadyExists` are the classified API exceptions from
`airflow.api_connexion.exceptions`; `keyError` stands for an uncaught Python
`KeyError`, i.e. an unclassified internal failure that is not translated. -/
inductive ApiError where
  | notFound (detail : String)
  | badRequest (detail : String)
  | alreadyExists (detail : String)
  | keyError (key : String)
deriving Repr, DecidableEq

/-- A validated patch document as produced by `dag_schema.load`: an
association list from field names to values.  Only the boolean payload of a
field is ever read by this endpoint (`patch_body['is_paused']`), so values
are modelled as `Bool`. -/
abbrev Doc := List (String × Bool)

/-- Python dict lookup `doc[key]`, returning `none` where Python would raise
`KeyError`. -/
def docGet (doc : Doc) (key : String) : Option Bool :=
  (doc.find? (fun p => p.1 == key)).map (fun p => p.2)

/-- Case-insensitive containment of `pat` in `hay`, the semantics of the SQL
`ilike '%pat%'` filter at line 83 of the source (SQL wildcard characters
inside the pattern are out of scope, as in the spec). -/
def charsContain : List Char → List Char → Bool
  | pat, [] => pat.isEmpty
  | pat, c :: rest => List.isPrefixOf pat (c :: rest) || charsContain pat rest

/-- String-level case-insensitive substring test. -/
def ilikeContains (hay pat : String) : Bool :=
  charsContain pat.toLower.data hay.toLower.data

/-- Lines 77-80: the base query excludes subdags, and additionally requires
`is_active` when `only_active` is set. -/
def dagsQueryBase (only_active : Bool) (registry : List DagModel) : List DagModel :=
  if only_active then
    registry.filter (fun d => !d.is_subdag && d.is_active)
  else
    registry.filter (fun d => !d.is_subdag)

/-- Lines 82-83: if `dag_id_pattern` is truthy (Python: neither `None` nor the
empty string), keep rows whose `dag_id` contains it case-insensitively. -/
def dagsQueryPattern (dag_id_pattern : Option String) (q : List DagModel) : List DagModel :=
  match dag_id_pattern with
  | none => q
  | some p => if p == "" then q else q.filter (fun d => ilikeContains d.dag_id p)

/-- Line 87: restrict to the accessible set returned by
`get_accessible_dag_ids(g.user)` (the `readable_dags` parameter). -/
def dagsQueryReadable (readable_dags : List String) (q : List DagModel) : List DagModel :=
  q.filter (fun d => readable_dags.contains d.dag_id)

/-- Lines 88-90: if `tags` is truthy (non-empty), keep rows having any of the
requested tags (an `or_` over per-tag conditions). -/
def dagsQueryTags (tags : List String) (q : List DagModel) : List DagModel :=
  if tags.isEmpty then q
  else q.filter (fun d => tags.any (fun t => d.tags.contains t))

/-- The full filter chain of `get_dags`, lines 77-90, in the source's order:
base predicate, then id pattern, then accessibility, then tags. -/
def dagsQueryAll (tags : List String) (dag_id_pattern : Option String)
    (only_active : Bool) (readable_dags : List String)
    (registry : List DagModel) : List DagModel :=
  dagsQueryTags tags
    (dagsQueryReadable readable_dags
      (dagsQueryPattern dag_id_pattern
        (dagsQueryBase only_active registry)))

/-- Order on rows used by `order_by(DagModel.dag_id)`: ascending `dag_id`,
stated on the character-list view of the identifier (the same lexicographic
order as `String` comparison, but kernel-computable). -/
def dagIdLe (a b : DagModel) : Prop :=
  a.dag_id.data ≤ b.dag_id.data

instance : DecidableRel dagIdLe :=
  fun a b => inferInstanceAs (Decidable (a.dag_id.data ≤ b.dag_id.data))

instance : IsTotal DagModel dagIdLe :=
  ⟨fun a b => le_total a.dag_id.data b.dag_id.data⟩

instance : IsTrans DagModel dagIdLe :=
  ⟨fun _ _ _ h1 h2 => le_trans h1 h2⟩

/-- Lines 67-96, `get_dags`: build the filtered query, record its full count
as `total_entries`, then sort by `dag_id`, apply `offset`, apply `limit`. -/
def get_dags (limit offset : Nat) (tags : List String)
    (dag_id_pattern : Option String) (only_active : Bool)
    (readable_dags : List String) (registry : List DagModel) : DAGCollection :=
  let q := dagsQueryAll tags dag_id_pattern only_active readable_dags registry
  { dags := (((List.insertionSort dagIdLe q).drop offset).take limit)
    total_entries := q.length }

/-- Lines 45-52, `get_dag`: single-row lookup by exact `dag_id`; absence is a
`NotFound`. -/
def get_dag (dag_id : String) (registry : List DagModel) : Except ApiError DagModel :=
  match registry.find? (fun d => d.dag_id == dag_id) with
  | none => .error (.notFound ("The DAG with dag_id: " ++ dag_id ++ " was not found"))
  | some dag => .ok dag

/-- Lines 101-121, `patch_dag`.  The result pairs the response (success
payload or error) with the registry after the call; every error is raised
before `setattr`/`commit`, so the registry is returned unchanged on every
error path.  `loadResult` is the outcome of `dag_schema.load(request.json)`:
`.error msgs` models a `ValidationError` (translated to `BadRequest`),
`.ok doc` the validated document.  A dict lookup on a missing key
(`patch_body[update_mask]` at line 117, `patch_body['is_paused']` at line
119) produces `ApiError.keyError`, the unclassified failure. -/
def patch_dag (dag_id : String) (update_mask : Option (List String))
    (loadResult : Except String Doc) (registry : List DagModel) :
    Except ApiError DagModel × List DagModel :=
  match registry.find? (fun d => d.dag_id == dag_id) with
  | none => (.error (.notFound ("Dag with id: " ++ dag_id ++ " not found")), registry)
  | some dag =>
    match loadResult with
    | .error msgs => (.error (.badRequest msgs), registry)
    | .ok patch_body =>
      let masked : Except ApiError Doc :=
        match update_mask with
        | none => .ok patch_body
        | some mask =>
          if mask.isEmpty then .ok patch_body
          else if mask.length > 1 then
            .error (.badRequest "Only `is_paused` field can be updated through the REST API")
          else
            let field := mask.headD ""
            if field != "is_paused" then
              .error (.badRequest "Only `is_paused` field can be updated through the REST API")
            else
              match docGet patch_body field with
              | none => .error (.keyError field)
              | some v => .ok [(field, v)]
      match masked with
      | .error e => (.error e, registry)
      | .ok body =>
        match docGet body "is_paused" with
        | none => (.error (.keyError "is_paused"), registry)
        | some v =>
          let dag' : DagModel := { dag with is_paused := v }
          (.ok dag', registry.map (fun d => if d.dag_id == dag.dag_id then dag' else d))

/-- Domain-level signals of the shared deletion routine. -/
inductive DeleteSignal where
  | dagNotFound
  | airflowException
deriving Repr, DecidableEq

/-- Modelled from the spec: the shared deletion routine
`airflow.api.common.experimental.delete_dag.delete_dag` (line 134) is not
among the sources; per the spec it signals "DAG not found" when the
identifier is absent, signals an Airflow-level error while dependent
task-instance execution state for that DAG is still running (the `running`
parameter), and otherwise removes the record and its dependents
all-or-nothing. -/
def shared_delete_dag (dag_id : String) (running : String → Bool)
    (registry : List DagModel) : Except DeleteSignal (List DagModel) :=
  match registry.find? (fun d => d.dag_id == dag_id) with
  | none => .error .dagNotFound
  | some _ =>
    if running dag_id then .error .airflowException
    else .ok (registry.filter (fun d => d.dag_id != dag_id))

/-- Lines 126-140, `delete_dag`: delegate to the shared routine and translate
`DagNotFound` to `NotFound` and `AirflowException` to `AlreadyExists`
(Conflict); success returns `NoContent` (modelled as `Unit`).  As in
`patch_dag`, the result carries the registry after the call. -/
def delete_dag (dag_id : String) (running : String → Bool)
    (registry : List DagModel) : Except ApiError Unit × List DagModel :=
  match shared_delete_dag dag_id running registry with
  | .error .dagNotFound =>
    (.error (.notFound ("Dag with id: " ++ dag_id ++ " not found")), registry)
  | .error .airflowException =>
    (.error (.alreadyExists ("Task instances of dag with id: " ++ dag_id ++ " are still running")),
      registry)
  | .ok reg => (.ok (), reg)

/-- Per-record combined filter predicate of `get_dags`: base predicate, id
pattern, accessibility, tags, conjoined.  Used to state that the pipeline of
chained filters computes a single pointwise conjunction. -/
def dagMatches (tags : List String) (dag_id_pattern : Option String)
    (only_active : Bool) (readable_dags : List String) (d : DagModel) : Bool :=
  (if only_active then !d.is_subdag && d.is_active else !d.is_subdag)
  && (match dag_id_pattern with
      | none => true
      | some p => p == "" || ilikeContains d.dag_id p)
  && readable_dags.contains d.dag_id
  && (tags.isEmpty || tags.any (fun t => d.tags.contains t))

/-- Pipeline following the spec sentence "the accessibility filter is applied
before any other filter combination, never after": the same four filters with
the accessibility restriction applied first, for comparison with the
source-ordered `dagsQueryAll`. -/
def dagsQueryAccessFirst (tags : List String) (dag_id_pattern : Option String)
    (only_active : Bool) (readable_dags : List String)
    (registry : List DagModel) : List DagModel :=
  dagsQueryTags tags
    (dagsQueryPattern dag_id_pattern
      (dagsQueryBase only_active
        (dagsQueryReadable readable_dags registry)))

/-- Listing built on the spec-ordered pipeline `dagsQueryAccessFirst`, for
comparison with `get_dags`. -/
def get_dagsAccessFirst (limit offset : Nat) (tags : List String)
    (dag_id_pattern : Option String) (only_active : Bool)
    (readable_dags : List String) (registry : List DagModel) : DAGCollection :=
  let q := dagsQueryAccessFirst tags dag_id_pattern only_active readable_dags registry
  { dags := (((List.insertionSort dagIdLe q).drop offset).take limit)
    total_entries := q.length }

/-- Sample records for concrete evaluations. -/
def dagA : DagModel :=
  { dag_id := "a_dag", is_paused := false, is_active := true, is_subdag := false,
    tags := ["etl"], owners := "alice", fileloc := "/dags/a.py" }

def dagB : DagModel :=
  { dag_id := "b_dag", is_paused := true, is_active := true, is_subdag := false,
    tags := ["ml"], owners := "bob", fileloc := "/dags/b.py" }

def dagSub : DagModel :=
  { dag_id := "parent.sub", is_paused := false, is_active := true, is_subdag := true,
    tags := [], owners := "alice", fileloc := "/dags/p.py" }

def sampleRegistry : List DagModel := [dagA, dagB, dagSub]

theorem dagsQueryBase_eq_filter (only_active : Bool) (registry : List DagModel) :
    dagsQueryBase only_active registry
      = registry.filter
          (fun d => if only_active then !d.is_subdag && d.is_active else !d.is_subdag) := by
  cases only_active <;> simp [dagsQueryBase]

theorem dagsQueryPattern_eq_filter (dag_id_pattern : Option String) (q : List DagModel) :
    dagsQueryPattern dag_id_pattern q
      = q.filter (fun d => match dag_id_pattern with
          | none => true
          | some p => p == "" || ilikeContains d.dag_id p) := by
  cases dag_id_pattern with
  | none => simp [dagsQueryPattern]
  | some p => cases hp : (p == "") <;> simp [dagsQueryPattern, hp]

theorem dagsQueryTags_eq_filter (tags : List String) (q : List DagModel) :
    dagsQueryTags tags q
      = q.filter (fun d => tags.isEmpty || tags.any (fun t => d.tags.contains t)) := by
  cases htags : tags.isEmpty <;> simp [dagsQueryTags, htags]

theorem dagsQueryAll_eq_filter (tags : List String) (dag_id_pattern : Option String)
    (only_active : Bool) (readable_dags : List String) (registry : List DagModel) :
    dagsQueryAll tags dag_id_pattern only_active readable_dags registry
      = registry.filter (dagMatches tags dag_id_pattern only_active readable_dags) := by
  rw [dagsQueryAll, dagsQueryBase_eq_filter, dagsQueryPattern_eq_filter,
    dagsQueryReadable, dagsQueryTags_eq_filter, List.filter_filter, List.filter_filter,
    List.filter_filter]
  apply List.filter_congr
  intro d _
  unfold dagMatches
  cases hb : (if only_active then !d.is_subdag && d.is_active else !d.is_subdag) <;>
    cases hp : (match dag_id_pattern with
      | none => true
      | some p => p == "" || ilikeContains d.dag_id p) <;>
    cases hr : readable_dags.contains d.dag_id <;>
    cases ht : (tags.isEmpty || tags.any (fun t => d.tags.contains t)) <;>
    simp [hb, hp, hr, ht]

theorem dagsQueryAccessFirst_eq_filter (tags : List String) (dag_id_pattern : Option String)
    (only_active : Bool) (readable_dags : List String) (registry : List DagModel) :
    dagsQueryAccessFirst tags dag_id_pattern only_active readable_dags registry
      = registry.filter (dagMatches tags dag_id_pattern only_active readable_dags) := by
  rw [dagsQueryAccessFirst, dagsQueryReadable, dagsQueryBase_eq_filter,
    dagsQueryPattern_eq_filter, dagsQueryTags_eq_filter, List.filter_filter,
    List.filter_filter, List.filter_filter]
  apply List.filter_congr
  intro d _
  unfold dagMatches
  cases hb : (if only_active then !d.is_subdag && d.is_active else !d.is_subdag) <;>
    cases hp : (match dag_id_pattern with
      | none => true
      | some p => p == "" || ilikeContains d.dag_id p) <;>
    cases hr : readable_dags.contains d.dag_id <;>
    cases ht : (tags.isEmpty || tags.any (fun t => d.tags.contains t)) <;>
    simp [hb, hp, hr, ht]

/-- C2: for every `get_dags` call, `total_entries` equals the number of
registry records satisfying the combined filters (subdag exclusion, active
flag when `only_active`, id pattern, accessibility, tags), counted before
`offset` and `limit` are applied: the right-hand side does not depend on
`limit` or `offset` at all. -/
theorem get_dags_total_entries (limit offset : Nat) (tags : List String)
    (dag_id_pattern : Option String) (only_active : Bool)
    (readable_dags : List String) (registry : List DagModel) :
    (get_dags limit offset tags dag_id_pattern only_active readable_dags registry).total_entries
      = (registry.filter (dagMatches tags dag_id_pattern only_active readable_dags)).length := by
  simp [get_dags, dagsQueryAll_eq_filter]

/-- C1: every record in the page returned by `get_dags` has an identifier
inside the accessible set `readable_dags` handed over by the permission
evaluator; no record outside the caller's accessible set is ever returned. -/
theorem get_dags_accessible (limit offset : Nat) (tags : List String)
    (dag_id_pattern : Option String) (only_active : Bool)
    (readable_dags : List String) (registry : List DagModel) (d : DagModel)
    (hd : d ∈ (get_dags limit offset tags dag_id_pattern only_active readable_dags registry).dags) :
    d.dag_id ∈ readable_dags := by
  simp only [get_dags] at hd
  have h1 : d ∈ List.insertionSort dagIdLe
      (dagsQueryAll tags dag_id_pattern only_active readable_dags registry) :=
    List.Sublist.mem (List.Sublist.mem hd (List.take_sublist _ _)) (List.drop_sublist _ _)
  have h2 : d ∈ dagsQueryAll tags dag_id_pattern only_active readable_dags registry :=
    (List.perm_insertionSort dagIdLe _).mem_iff.mp h1
  rw [dagsQueryAll_eq_filter] at h2
  have h3 := (List.mem_filter.mp h2).2
  unfold dagMatches at h3
  simp only [Bool.and_eq_true] at h3
  have h4 : readable_dags.contains d.dag_id = true := h3.1.2
  simpa using h4

/-- C6: with a non-empty `tags` collection, a record belongs to the matched
set of `get_dags` exactly when it passes all the other filters and its tag
set contains at least one of the requested tags (OR across tags, not AND). -/
theorem get_dags_tags_or (tags : List String) (dag_id_pattern : Option String)
    (only_active : Bool) (readable_dags : List String) (registry : List DagModel)
    (d : DagModel) (htags : tags ≠ []) :
    d ∈ dagsQueryAll tags dag_id_pattern only_active readable_dags registry
      ↔ (d ∈ dagsQueryReadable readable_dags
            (dagsQueryPattern dag_id_pattern (dagsQueryBase only_active registry))
          ∧ ∃ t ∈ tags, t ∈ d.tags) := by
  have hne : tags.isEmpty = false := List.isEmpty_eq_false.mpr htags
  unfold dagsQueryAll dagsQueryTags
  rw [hne]
  simp [List.mem_filter, List.any_eq_true]

/-- C8: when `offset` is at least the total match count, `get_dags` returns
an empty page together with the correct `total_entries`, and no error. -/
theorem get_dags_offset_beyond (limit offset : Nat) (tags : List String)
    (dag_id_pattern : Option String) (only_active : Bool)
    (readable_dags : List String) (registry : List DagModel)
    (h : (registry.filter (dagMatches tags dag_id_pattern only_active readable_dags)).length
          ≤ offset) :
    (get_dags limit offset tags dag_id_pattern only_active readable_dags registry).dags = []
      ∧ (get_dags limit offset tags dag_id_pattern only_active readable_dags registry).total_entries
          = (registry.filter (dagMatches tags dag_id_pattern only_active readable_dags)).length := by
  constructor
  · simp only [get_dags]
    have hlen : (List.insertionSort dagIdLe
        (dagsQueryAll tags dag_id_pattern only_active readable_dags registry)).length ≤ offset := by
      rw [List.length_insertionSort, dagsQueryAll_eq_filter]
      exact h
    rw [List.drop_eq_nil_of_le hlen]
    simp
  · simp [get_dags, dagsQueryAll_eq_filter]

/-- C9: `get_dags` is deterministic (two calls with identical inputs against
an unchanged registry return the same value), and the returned page is
sorted by identifier, ascending. -/
theorem get_dags_deterministic_sorted (limit offset : Nat) (tags : List String)
    (dag_id_pattern : Option String) (only_active : Bool)
    (readable_dags : List String) (registry : List DagModel) :
    get_dags limit offset tags dag_id_pattern only_active readable_dags registry
        = get_dags limit offset tags dag_id_pattern only_active readable_dags registry
      ∧ (get_dags limit offset tags dag_id_pattern only_active readable_dags registry).dags.Pairwise
          (fun a b => a.dag_id ≤ b.dag_id) := by
  refine ⟨rfl, ?_⟩
  have hs : (List.insertionSort dagIdLe
      (dagsQueryAll tags dag_id_pattern only_active readable_dags registry)).Pairwise dagIdLe :=
    List.sorted_insertionSort dagIdLe _
  have hsub : ((((List.insertionSort dagIdLe
        (dagsQueryAll tags dag_id_pattern only_active readable_dags registry)).drop
          offset).take limit)).Sublist
      (List.insertionSort dagIdLe
        (dagsQueryAll tags dag_id_pattern only_active readable_dags registry)) :=
    (List.take_sublist _ _).trans (List.drop_sublist _ _)
  have hp := List.Pairwise.sublist hsub hs
  simp only [get_dags]
  exact hp.imp (fun h => String.le_iff_toList_le.mpr h)

/-- C7 counterexample: the record set to which the accessibility restriction
is applied is not the untouched registry: on `sampleRegistry` the base
predicate (lines 77-80) has already removed the subdag row before the
accessibility filter of line 87 runs, so a filter is applied prior to the
accessibility restriction. -/
theorem dags_access_order_counterexample :
    ¬ (dagsQueryPattern none (dagsQueryBase true sampleRegistry) = sampleRegistry) := by
  decide

/-- C7 amended: in the source the base predicate and the id-pattern filter
are chained before the accessibility filter and the tags filter after it;
all four are pointwise row predicates, so the order does not change the
outcome: the matched set, and hence the whole listing, coincide with those
of the pipeline that applies the accessibility restriction first. -/
theorem get_dags_access_order_equiv (limit offset : Nat) (tags : List String)
    (dag_id_pattern : Option String) (only_active : Bool)
    (readable_dags : List String) (registry : List DagModel) :
    dagsQueryAll tags dag_id_pattern only_active readable_dags registry
        = dagsQueryAccessFirst tags dag_id_pattern only_active readable_dags registry
      ∧ get_dags limit offset tags dag_id_pattern only_active readable_dags registry
        = get_dagsAccessFirst limit offset tags dag_id_pattern only_active readable_dags registry := by
  have h : dagsQueryAll tags dag_id_pattern only_active readable_dags registry
      = dagsQueryAccessFirst tags dag_id_pattern only_active readable_dags registry := by
    rw [dagsQueryAll_eq_filter, dagsQueryAccessFirst_eq_filter]
  exact ⟨h, by simp only [get_dags, get_dagsAccessFirst, h]⟩

theorem get_dags_accessible_witness :
    dagA ∈ (get_dags 5 0 [] none true ["a_dag"] sampleRegistry).dags
      ∧ dagA.dag_id ∈ ["a_dag"] :=
  ⟨by decide, get_dags_accessible 5 0 [] none true ["a_dag"] sampleRegistry dagA (by decide)⟩

theorem get_dags_tags_or_witness :
    (["etl"] ≠ ([] : List String))
      ∧ (dagA ∈ dagsQueryAll ["etl"] none true ["a_dag", "b_dag"] sampleRegistry
          ↔ (dagA ∈ dagsQueryReadable ["a_dag", "b_dag"]
                (dagsQueryPattern none (dagsQueryBase true sampleRegistry))
              ∧ ∃ t ∈ ["etl"], t ∈ dagA.tags)) :=
  ⟨by decide,
    get_dags_tags_or ["etl"] none true ["a_dag", "b_dag"] sampleRegistry dagA (by decide)⟩

theorem get_dags_offset_beyond_witness :
    ((sampleRegistry.filter (dagMatches [] none true ["a_dag", "b_dag"])).length ≤ 10)
      ∧ ((get_dags 5 10 [] none true ["a_dag", "b_dag"] sampleRegistry).dags = []
          ∧ (get_dags 5 10 [] none true ["a_dag", "b_dag"] sampleRegistry).total_entries
              = (sampleRegistry.filter (dagMatches [] none true ["a_dag", "b_dag"])).length) :=
  ⟨by decide,
    get_dags_offset_beyond 5 10 [] none true ["a_dag", "b_dag"] sampleRegistry (by decide)⟩

/-- C3: on an existing DAG with a valid patch document, an update mask that
names more than one field, or any field other than `is_paused`, makes
`patch_dag` fail with `BadRequest`, and the registry is returned unmodified
(nothing is assigned or committed). -/
theorem patch_dag_bad_mask (dag_id : String) (mask : List String) (doc : Doc)
    (registry : List DagModel) (dag : DagModel)
    (hfind : registry.find? (fun d => d.dag_id == dag_id) = some dag)
    (hmask : 1 < mask.length ∨ ∃ f ∈ mask, f ≠ "is_paused") :
    patch_dag dag_id (some mask) (.ok doc) registry
      = (.error (.badRequest "Only `is_paused` field can be updated through the REST API"),
         registry) := by
  by_cases hlen : 1 < mask.length
  · have hemp : mask.isEmpty = false := by
      cases mask with
      | nil => simp at hlen
      | cons a t => rfl
    simp [patch_dag, hfind, hemp, hlen]
  · have hex : ∃ f ∈ mask, f ≠ "is_paused" := by
      rcases hmask with h | h
      · exact absurd h hlen
      · exact h
    rcases hex with ⟨f, hf, hne⟩
    have hm : mask = [f] := by
      cases mask with
      | nil => simp at hf
      | cons a t =>
        cases t with
        | nil =>
          simp only [List.mem_singleton] at hf
          rw [hf]
        | cons b t2 =>
          exfalso
          apply hlen
          simp [List.length_cons]
    subst hm
    have hfne : (f != "is_paused") = true := bne_iff_ne.mpr hne
    simp [patch_dag, hfind, hfne]

/-- C4: `patch_dag` only ever assigns `is_paused`.  For every successful call
(whatever the mask and the validated document), the returned record agrees
with the stored one on every field except possibly `is_paused`, and the
registry changes only at the patched identifier; in particular the call with
`update_mask = ["is_paused"]` and body `{is_paused: true}` on an existing,
previously unpaused DAG succeeds and returns the record with
`is_paused = true` and no other field changed. -/
theorem patch_dag_frame (dag_id : String) (update_mask : Option (List String))
    (loadResult : Except String Doc) (registry : List DagModel) (dag : DagModel)
    (hfind : registry.find? (fun d => d.dag_id == dag_id) = some dag) :
    (∀ res reg', patch_dag dag_id update_mask loadResult registry = (.ok res, reg') →
        res.dag_id = dag.dag_id ∧ res.is_active = dag.is_active
          ∧ res.is_subdag = dag.is_subdag ∧ res.tags = dag.tags
          ∧ res.owners = dag.owners ∧ res.fileloc = dag.fileloc
          ∧ reg' = registry.map (fun d => if d.dag_id == dag.dag_id then res else d))
      ∧ (∀ doc, loadResult = .ok doc → update_mask = some ["is_paused"] →
          docGet doc "is_paused" = some true → dag.is_paused = false →
          patch_dag dag_id update_mask loadResult registry
            = (.ok { dag with is_paused := true },
               registry.map (fun d =>
                 if d.dag_id == dag.dag_id then { dag with is_paused := true } else d))) := by
  constructor
  · intro res reg' h
    cases loadResult with
    | error msgs => simp [patch_dag, hfind] at h
    | ok patch_body =>
      simp only [patch_dag, hfind] at h
      split at h
      · simp at h
      · split at h
        · simp at h
        · rw [Prod.mk.injEq] at h
          obtain ⟨h1, h2⟩ := h
          rw [Except.ok.injEq] at h1
          subst h1
          subst h2
          exact ⟨rfl, rfl, rfl, rfl, rfl, rfl, rfl⟩
  · intro doc hload hmask hdoc hpaused
    subst hload
    subst hmask
    have hconc : docGet [("is_paused", true)] "is_paused" = some true := rfl
    simp [patch_dag, hfind, hdoc, hconc]

/-- C10: when the validated patch document lacks the `is_paused` key,
`patch_dag` on an existing DAG fails with the unclassified dictionary-lookup
failure (`KeyError`) instead of a `BadRequest`, both with no mask (line 119
of the source) and with `update_mask = ["is_paused"]` (line 117): the
presence of `is_paused` in the validated document is an unstated
precondition for a classified result. -/
theorem patch_dag_keyerror :
    patch_dag "a_dag" none (.ok [("is_active", true)]) sampleRegistry
        = (.error (.keyError "is_paused"), sampleRegistry)
      ∧ patch_dag "a_dag" (some ["is_paused"]) (.ok []) sampleRegistry
        = (.error (.keyError "is_paused"), sampleRegistry) :=
  ⟨rfl, rfl⟩

/-- C5: `delete_dag` translates the shared deletion routine's domain signals:
"DAG not found" becomes `NotFound`; "active/running dependents exist"
becomes `Conflict` (`AlreadyExists`) with the registry left intact; and on a
quiesced existing DAG the call succeeds with an empty payload and the
identifier is absent from a subsequent `get_dag` lookup. -/
theorem delete_dag_translation (dag_id : String) (running : String → Bool)
    (registry : List DagModel) :
    (registry.find? (fun d => d.dag_id == dag_id) = none →
        delete_dag dag_id running registry
          = (.error (.notFound ("Dag with id: " ++ dag_id ++ " not found")), registry))
      ∧ (∀ dag, registry.find? (fun d => d.dag_id == dag_id) = some dag →
          running dag_id = true →
          delete_dag dag_id running registry
            = (.error (.alreadyExists
                ("Task instances of dag with id: " ++ dag_id ++ " are still running")),
               registry))
      ∧ (∀ dag, registry.find? (fun d => d.dag_id == dag_id) = some dag →
          running dag_id = false →
          (delete_dag dag_id running registry).1 = .ok ()
            ∧ get_dag dag_id (delete_dag dag_id running registry).2
                = .error (.notFound ("The DAG with dag_id: " ++ dag_id ++ " was not found"))) := by
  refine ⟨?_, ?_, ?_⟩
  · intro h
    simp [delete_dag, shared_delete_dag, h]
  · intro dag h hrun
    simp [delete_dag, shared_delete_dag, h, hrun]
  · intro dag h hrun
    constructor
    · simp [delete_dag, shared_delete_dag, h, hrun]
    · have hnone : (registry.filter (fun d => d.dag_id != dag_id)).find?
          (fun d => d.dag_id == dag_id) = none := by
        rw [List.find?_eq_none]
        intro x hx
        have hx2 := (List.mem_filter.mp hx).2
        simp only [bne_iff_ne, ne_eq] at hx2
        simp [hx2]
      simp [delete_dag, shared_delete_dag, h, hrun, get_dag, hnone]

theorem patch_dag_bad_mask_witness :
    sampleRegistry.find? (fun d => d.dag_id == "a_dag") = some dagA
      ∧ (1 < (["name"] : List String).length
          ∨ ∃ f ∈ (["name"] : List String), f ≠ "is_paused")
      ∧ patch_dag "a_dag" (some ["name"]) (.ok [("is_paused", true)]) sampleRegistry
          = (.error (.badRequest "Only `is_paused` field can be updated through the REST API"),
             sampleRegistry) :=
  ⟨rfl, by decide,
    patch_dag_bad_mask "a_dag" ["name"] [("is_paused", true)] sampleRegistry dagA rfl
      (by decide)⟩

theorem patch_dag_frame_witness :
    sampleRegistry.find? (fun d => d.dag_id == "a_dag") = some dagA
      ∧ patch_dag "a_dag" (some ["is_paused"]) (.ok [("is_paused", true)]) sampleRegistry
          = (.ok { dagA with is_paused := true },
             sampleRegistry.map (fun d =>
               if d.dag_id == dagA.dag_id then { dagA with is_paused := true } else d)) :=
  ⟨rfl,
    (patch_dag_frame "a_dag" (some ["is_paused"]) (.ok [("is_paused", true)]) sampleRegistry dagA
        rfl).2 [("is_paused", true)] rfl rfl rfl rfl⟩

theorem delete_dag_translation_witness :
    delete_dag "zzz" (fun _ => false) sampleRegistry
        = (.error (.notFound ("Dag with id: " ++ "zzz" ++ " not found")), sampleRegistry)
      ∧ delete_dag "a_dag" (fun _ => true) sampleRegistry
          = (.error (.alreadyExists
              ("Task instances of dag with id: " ++ "a_dag" ++ " are still running")),
             sampleRegistry)
      ∧ ((delete_dag "a_dag" (fun _ => false) sampleRegistry).1 = .ok ()
          ∧ get_dag "a_dag" (delete_dag "a_dag" (fun _ => false) sampleRegistry).2
              = .error (.notFound ("The DAG with dag_id: " ++ "a_dag" ++ " was not found"))) :=
  ⟨(delete_dag_translation "zzz" (fun _ => false) sampleRegistry).1 rfl,
   (delete_dag_translation "a_dag" (fun _ => true) sampleRegistry).2.1 dagA rfl rfl,
   (delete_dag_translation "a_dag" (fun _ => false) sampleRegistry).2.2 dagA rfl rfl⟩
